import Mathlib

/-!
Shallow embedding of the identity-mapping utilities of the repository
(`src/utils/userUtils.ts` and its workaround variant): the deterministic
UUID mapper `generateConsistentUUID`, the format validator `validateUUID`,
and the profile resolver `getOrCreateUserProfile` against a modelled
Profile Store collaborator.
-/

set_option maxHeartbeats 2000000
set_option maxRecDepth 20000

/-- JavaScript ToInt32: reduce an integer to the 32-bit signed range
`[-2^31, 2^31)`, as performed by the bitwise operators `<<` and `&`. -/
def toInt32 (x : Int) : Int :=
  (x + 2 ^ 31) % 2 ^ 32 - 2 ^ 31

/-- One iteration of the hash loop in `generateConsistentUUID`:
`hash = ((hash << 5) - hash) + char; hash = hash & hash;` under JavaScript
semantics (`<<` truncates its result to int32; `hash & hash` is ToInt32). -/
def hashStep (h : Int) (c : Nat) : Int :=
  toInt32 (toInt32 (toInt32 h * 32) - h + (c : Int))

/-- The whole hash loop, folded over the UTF-16 code units of the input
(JavaScript `charCodeAt` enumerates UTF-16 code units). -/
def hashString (codes : List Nat) : Int :=
  codes.foldl hashStep 0

/-- UTF-16 code units of one character (surrogate pair for astral planes),
matching what `charCodeAt` yields position by position. -/
def charUtf16 (c : Char) : List Nat :=
  let n := c.toNat
  if n < 0x10000 then [n]
  else [0xD800 + (n - 0x10000) / 0x400, 0xDC00 + (n - 0x10000) % 0x400]

/-- UTF-16 code-unit sequence of a string. -/
def utf16Codes (s : String) : List Nat :=
  (s.toList.map charUtf16).flatten

/-- Lowercase hexadecimal digits of `n`, most significant first
(`Number.prototype.toString(16)` on a nonnegative integer); fuel-indexed so
that the kernel can evaluate it. -/
def hexDigitsAux : Nat → Nat → List Char
  | 0, _ => []
  | fuel + 1, n =>
    if n < 16 then [Nat.digitChar n]
    else hexDigitsAux fuel (n / 16) ++ [Nat.digitChar (n % 16)]

/-- Lowercase hexadecimal rendering of a natural number, as `toString(16)`. -/
def hexDigits (n : Nat) : List Char :=
  hexDigitsAux (n + 1) n

/-- `String.prototype.padStart(n, "0")` on a character list. -/
def padStartZeros (l : List Char) (n : Nat) : List Char :=
  List.replicate (n - l.length) '0' ++ l

/-- `String.prototype.padEnd(n, "0")` on a character list. -/
def padEndZeros (l : List Char) (n : Nat) : List Char :=
  l ++ List.replicate (n - l.length) '0'

/-- `String.prototype.slice(a, b)` (for `0 ≤ a ≤ b`): characters in `[a, b)`. -/
def jsSlice (l : List Char) (a b : Nat) : List Char :=
  (l.take b).drop a

/-- The fixed namespace constant `NAMESPACE_UUID` of `userUtils.ts`. -/
def NAMESPACE_UUID : String := "1b671a64-40d5-491e-99b0-da01ff1f3341"

/-- The template literal of `generateConsistentUUID`:
`hex.slice(0,8) - hex.slice(0,4) - 4 hex.slice(1,4) - a hex.slice(0,3) -
hex.slice(0,12).padEnd(12,'0')`. -/
def buildUUIDChars (hex : List Char) : List Char :=
  jsSlice hex 0 8 ++ ['-'] ++ jsSlice hex 0 4 ++ ['-'] ++ ['4'] ++ jsSlice hex 1 4
    ++ ['-'] ++ ['a'] ++ jsSlice hex 0 3 ++ ['-'] ++ padEndZeros (jsSlice hex 0 12) 12

/-- The identity mapper `generateConsistentUUID` of `userUtils.ts`.  The body
of its `try` block consists only of total operations (string concatenation,
`charCodeAt`, 32-bit arithmetic, `toString(16)`, padding, slicing), so the
`catch` branch returning `crypto.randomUUID()` is unreachable and the
function is a pure total function of its argument. -/
def generateConsistentUUID (userId : String) : String :=
  let input := userId ++ NAMESPACE_UUID
  let hash := hashString (utf16Codes input)
  let hex := padStartZeros (hexDigits hash.natAbs) 8
  String.mk (buildUUIDChars hex)

/-- Hexadecimal digit character class `[0-9a-f]` under the regex flag `i`. -/
def isHexDigit (c : Char) : Bool :=
  ('0' ≤ c && c ≤ '9') || ('a' ≤ c && c ≤ 'f') || ('A' ≤ c && c ≤ 'F')

/-- Version-nibble character class `[1-5]` of the validator regex. -/
def isVersionNibble (c : Char) : Bool :=
  '1' ≤ c && c ≤ '5'

/-- Variant-nibble character class `[89ab]` under the regex flag `i`. -/
def isVariantNibble (c : Char) : Bool :=
  c == '8' || c == '9' || c == 'a' || c == 'b' || c == 'A' || c == 'B'

/-- Literal dash of the validator regex. -/
def isDash (c : Char) : Bool :=
  c == '-'

/-- Match a character list against a sequence of character classes, anchored
at both ends (the `^...$` of the regex). -/
def matchClasses : List Char → List (Char → Bool) → Bool
  | [], [] => true
  | c :: cs, p :: ps => p c && matchClasses cs ps
  | _, _ => false

/-- The character-class sequence of the validator regex
`^[0-9a-f]{8}-[0-9a-f]{4}-[1-5][0-9a-f]{3}-[89ab][0-9a-f]{3}-[0-9a-f]{12}$/i`. -/
def uuidClasses : List (Char → Bool) :=
  List.replicate 8 isHexDigit ++ [isDash] ++ List.replicate 4 isHexDigit ++ [isDash]
    ++ [isVersionNibble] ++ List.replicate 3 isHexDigit ++ [isDash]
    ++ [isVariantNibble] ++ List.replicate 3 isHexDigit ++ [isDash]
    ++ List.replicate 12 isHexDigit

/-- The format validator `validateUUID` of `userUtils.ts`. -/
def validateUUID (uuid : String) : Bool :=
  matchClasses uuid.toList uuidClasses

/-- A row of the `profiles` table: the fields written by
`getOrCreateUserProfile`'s direct insert. -/
structure ProfileRecord where
  id : String
  full_name : String
  email : String
  role : String
  auth_provider : String
deriving DecidableEq, Repr

/-- The Profile Store state: the rows of the `profiles` table. -/
abbrev Store := List ProfileRecord

/-- Behaviour of one `maybeSingle` lookup: the awaited call throws a
JavaScript exception, returns an error object (so `data` is `null`), or
works and answers from the store state. -/
inductive LookupB
  | throws
  | errs
  | works
deriving DecidableEq

/-- Behaviour of the `get_or_create_user_profile` RPC: throw, return an
`rpcError`, succeed with `data` equal to `null`, or run the database
function against the store state. -/
inductive RpcB
  | throws
  | errs
  | retNull
  | runs
deriving DecidableEq

/-- Behaviour of the direct `insert ... select('id').single()` call. -/
inductive InsertB
  | throws
  | errs
  | works
deriving DecidableEq

/-- One resolver invocation's Profile Store behaviour, one component per
remote operation the code performs. -/
structure StoreBehavior where
  idLookup : LookupB
  emailLookup : LookupB
  rpc : RpcB
  ins : InsertB

/-- A lookup is failing when the store is unreachable for it: it throws or
returns an error instead of answering. -/
def LookupB.fails : LookupB → Bool
  | .throws => true
  | .errs => true
  | .works => false

/-- The RPC is failing when the store is unreachable for it. -/
def RpcB.fails : RpcB → Bool
  | .throws => true
  | .errs => true
  | .retNull => false
  | .runs => false

/-- The insert is failing when the store is unreachable for it. -/
def InsertB.fails : InsertB → Bool
  | .throws => true
  | .errs => true
  | .works => false

/-- One `maybeSingle` lookup: `Except` models a thrown JavaScript
exception, the inner `Option` the `data` field (`null` on error or on no
match; the first matching row otherwise). -/
def doLookup (lb : LookupB) (pred : ProfileRecord → Bool) (st : Store) :
    Except Unit (Option ProfileRecord) :=
  match lb with
  | .throws => .error ()
  | .errs => .ok none
  | .works => .ok (List.find? pred st)

/-- The `try` block of lines 39-64 of `userUtils.ts` (identical in the
workaround variant): look up by primary key, then by email; an early
`return` is `some id`; falling through — including via the swallowing
`catch` — is `none`. A thrown first lookup skips the second. -/
def lookupPhase (b : StoreBehavior) (supabaseUserId userEmail : String)
    (st : Store) : Option String :=
  match doLookup b.idLookup (fun r => r.id == supabaseUserId) st with
  | .error _ => none
  | .ok (some existingProfile) => some existingProfile.id
  | .ok none =>
    match doLookup b.emailLookup (fun r => r.email == userEmail) st with
    | .error _ => none
    | .ok (some emailProfile) => some emailProfile.id
    | .ok none => none

/-- Modelled from the spec: the database function
`get_or_create_user_profile` invoked by RPC is repository code that lives in
the database migrations, not under `src/`.  Per the spec it is the external
record-creation procedure: it derives the same deterministic id from the
external id (the source comments that the hash "matches server logic"),
reuses an existing row with that key, and otherwise creates the row keyed by
the derived id carrying the supplied attributes, returning the id. -/
def rpcGetOrCreate (clerkUserId fullName userEmail userRole : String)
    (st : Store) : String × Store :=
  let id := generateConsistentUUID clerkUserId
  match List.find? (fun r => r.id == id) st with
  | some r => (r.id, st)
  | none => (id, st ++ [⟨id, fullName, userEmail, userRole, "clerk"⟩])

/-- The direct-insert fallback of lines 79-102 of `userUtils.ts`: on a
working store the row keyed `supabaseUserId` is inserted (a primary-key
conflict surfaces as `insertError`, degraded to returning `supabaseUserId`);
`insertData.id` of the inserted row is `supabaseUserId`.  Any error or
exception degrades to `supabaseUserId` with the store unchanged. -/
def insertFallback (ib : InsertB) (supabaseUserId fullName userEmail userRole : String)
    (st : Store) : String × Store :=
  match ib with
  | .throws => (supabaseUserId, st)
  | .errs => (supabaseUserId, st)
  | .works =>
    if st.any (fun r => r.id == supabaseUserId) then (supabaseUserId, st)
    else (supabaseUserId, st ++ [⟨supabaseUserId, fullName, userEmail, userRole, "clerk"⟩])

/-- The creation block of lines 66-115 of `userUtils.ts`: call the RPC;
on `rpcError` fall back to the direct insert; on a null `profileId` or any
exception return `supabaseUserId`. -/
def creationPhase (b : StoreBehavior) (clerkUserId fullName userEmail userRole : String)
    (supabaseUserId : String) (st : Store) : String × Store :=
  match b.rpc with
  | .throws => (supabaseUserId, st)
  | .errs => insertFallback b.ins supabaseUserId fullName userEmail userRole st
  | .retNull => (supabaseUserId, st)
  | .runs =>
    let res := rpcGetOrCreate clerkUserId fullName userEmail userRole st
    (res.1, res.2)

/-- The full resolver `getOrCreateUserProfile` of `src/utils/userUtils.ts`
(lookup by id, lookup by email, RPC, direct-insert fallback), returning the
resolved id together with the resulting store state.  It is a total
function: every exception of the source is caught inside it. -/
def getOrCreateUserProfile (clerkUserId fullName userEmail userRole : String)
    (b : StoreBehavior) (st : Store) : String × Store :=
  let supabaseUserId := generateConsistentUUID clerkUserId
  match lookupPhase b supabaseUserId userEmail st with
  | some id => (id, st)
  | none => creationPhase b clerkUserId fullName userEmail userRole supabaseUserId st

/-- The workaround resolver of `src/unnamed/part_000`: same lookups, but the
creation step is skipped ("Skip the broken database function - just return
the UUID") and `supabaseUserId` is returned directly. -/
def getOrCreateUserProfileWorkaround (clerkUserId fullName userEmail userRole : String)
    (b : StoreBehavior) (st : Store) : String × Store :=
  let supabaseUserId := generateConsistentUUID clerkUserId
  match lookupPhase b supabaseUserId userEmail st with
  | some id => (id, st)
  | none => (supabaseUserId, st)

/-- The all-working Profile Store behaviour: every remote operation
reaches the store. -/
def goodBehavior : StoreBehavior :=
  ⟨.works, .works, .runs, .works⟩

lemma toInt32_bounds (x : Int) : -2 ^ 31 ≤ toInt32 x ∧ toInt32 x < 2 ^ 31 := by
  unfold toInt32
  omega

lemma hashString_bounds (codes : List Nat) :
    -2 ^ 31 ≤ hashString codes ∧ hashString codes < 2 ^ 31 := by
  have key : ∀ (cs : List Nat) (h : Int), -2 ^ 31 ≤ h → h < 2 ^ 31 →
      -2 ^ 31 ≤ cs.foldl hashStep h ∧ cs.foldl hashStep h < 2 ^ 31 := by
    intro cs
    induction cs with
    | nil => intro h h1 h2; exact ⟨h1, h2⟩
    | cons c cs ih =>
      intro h h1 h2
      have hb := toInt32_bounds (toInt32 (toInt32 h * 32) - h + (c : Int))
      rw [List.foldl_cons]
      exact ih _ hb.1 hb.2
  exact key _ 0 (by norm_num) (by norm_num)

lemma hexDigitsAux_length_le :
    ∀ (fuel n k : Nat), 0 < k → n < 16 ^ k → n < fuel →
      (hexDigitsAux fuel n).length ≤ k := by
  intro fuel
  induction fuel with
  | zero => intro n k _ _ hf; omega
  | succ fuel ih =>
    intro n k hk hnk hf
    by_cases h16 : n < 16
    · simp [hexDigitsAux, h16]
      omega
    · obtain ⟨k, rfl⟩ : ∃ m, k = m + 1 := ⟨k - 1, by omega⟩
      have hk1 : 0 < k := by
        by_contra hc
        have : k = 0 := by omega
        subst this
        simp [pow_one] at hnk
        omega
      have hdiv : n / 16 < 16 ^ k := by
        rw [pow_succ] at hnk
        omega
      have hrec : (hexDigitsAux fuel (n / 16)).length ≤ k :=
        ih (n / 16) k hk1 hdiv (by omega)
      simp [hexDigitsAux, h16]
      omega

lemma digitChar_isHex (n : Nat) (h : n < 16) : isHexDigit (Nat.digitChar n) = true := by
  interval_cases n <;> decide

lemma hexDigitsAux_all_hex : ∀ (fuel n : Nat), (hexDigitsAux fuel n).all isHexDigit = true := by
  intro fuel
  induction fuel with
  | zero => intro n; rfl
  | succ fuel ih =>
    intro n
    by_cases h16 : n < 16
    · simp [hexDigitsAux, h16, digitChar_isHex n h16]
    · simp [hexDigitsAux, h16, List.all_append, ih (n / 16),
        digitChar_isHex (n % 16) (by omega)]

lemma padStartZeros_length (l : List Char) (n : Nat) (h : l.length ≤ n) :
    (padStartZeros l n).length = n := by
  simp [padStartZeros]
  omega

lemma padStartZeros_all_hex (l : List Char) (n : Nat) (h : l.all isHexDigit = true) :
    (padStartZeros l n).all isHexDigit = true := by
  simp [padStartZeros, List.all_append, h, List.all_eq_true]
  exact Or.inr (by decide)

lemma isDash_dash : isDash '-' = true := by decide

lemma isVersionNibble_four : isVersionNibble '4' = true := by decide

lemma isVariantNibble_a : isVariantNibble 'a' = true := by decide

lemma isHexDigit_zero : isHexDigit '0' = true := by decide

lemma matchClasses_build (L : List Char) (hl : L.length = 8)
    (hh : L.all isHexDigit = true) :
    matchClasses (buildUUIDChars L) uuidClasses = true := by
  match L, hl with
  | [c0, c1, c2, c3, c4, c5, c6, c7], _ =>
    simp [List.all_cons, Bool.and_eq_true] at hh
    obtain ⟨h0, h1, h2, h3, h4, h5, h6, h7⟩ := hh
    simp [buildUUIDChars, jsSlice, padEndZeros, uuidClasses, matchClasses,
      List.replicate, h0, h1, h2, h3, h4, h5, h6, h7,
      isDash_dash, isVersionNibble_four, isVariantNibble_a, isHexDigit_zero]

lemma validateUUID_generateConsistentUUID (s : String) :
    validateUUID (generateConsistentUUID s) = true := by
  have hb := hashString_bounds (utf16Codes (s ++ NAMESPACE_UUID))
  have habs : (hashString (utf16Codes (s ++ NAMESPACE_UUID))).natAbs < 16 ^ 8 := by
    have h16 : (16 : Nat) ^ 8 = 4294967296 := by norm_num
    have h2 : (2 : Int) ^ 31 = 2147483648 := by norm_num
    omega
  have hlen8 : (hexDigits (hashString (utf16Codes (s ++ NAMESPACE_UUID))).natAbs).length ≤ 8 :=
    hexDigitsAux_length_le _ _ 8 (by norm_num) habs (Nat.lt_succ_self _)
  have hall : (hexDigits (hashString (utf16Codes (s ++ NAMESPACE_UUID))).natAbs).all isHexDigit = true :=
    hexDigitsAux_all_hex _ _
  exact matchClasses_build _ (padStartZeros_length _ _ hlen8)
    (padStartZeros_all_hex _ _ hall)

lemma lookupPhase_cases (b : StoreBehavior) (sid em : String) (st : Store) :
    lookupPhase b sid em st = none ∨
      ∃ rec ∈ st, lookupPhase b sid em st = some rec.id := by
  unfold lookupPhase doLookup
  rcases b with ⟨bi, be, br, bins⟩
  cases bi with
  | throws => left; rfl
  | errs =>
    cases be with
    | throws => left; rfl
    | errs => left; rfl
    | works =>
      cases hf : List.find? (fun r => r.email == em) st with
      | none => left; simp [hf]
      | some r => right; exact ⟨r, List.mem_of_find?_eq_some hf, by simp [hf]⟩
  | works =>
    cases hf : List.find? (fun r => r.id == sid) st with
    | none =>
      cases be with
      | throws => left; simp [hf]
      | errs => left; simp [hf]
      | works =>
        cases hf2 : List.find? (fun r => r.email == em) st with
        | none => left; simp [hf, hf2]
        | some r => right; exact ⟨r, List.mem_of_find?_eq_some hf2, by simp [hf, hf2]⟩
    | some r => right; exact ⟨r, List.mem_of_find?_eq_some hf, by simp [hf]⟩

lemma insertFallback_fst (ib : InsertB) (sid fn em ur : String) (st : Store) :
    (insertFallback ib sid fn em ur st).1 = sid := by
  cases ib with
  | throws => rfl
  | errs => rfl
  | works =>
    show (if st.any (fun r => r.id == sid) then (sid, st)
      else (sid, st ++ [⟨sid, fn, em, ur, "clerk"⟩])).1 = sid
    by_cases h : st.any (fun r => r.id == sid)
    · simp [h]
    · simp [h]

lemma creationPhase_fst (b : StoreBehavior) (cid fn em ur : String) (st : Store) :
    (creationPhase b cid fn em ur (generateConsistentUUID cid) st).1 =
      generateConsistentUUID cid := by
  rcases b with ⟨bi, be, br, bins⟩
  cases br with
  | throws => rfl
  | retNull => rfl
  | errs => exact insertFallback_fst bins (generateConsistentUUID cid) fn em ur st
  | runs =>
    show (rpcGetOrCreate cid fn em ur st).1 = generateConsistentUUID cid
    unfold rpcGetOrCreate
    cases hf : List.find? (fun r => r.id == generateConsistentUUID cid) st with
    | none => simp [hf]
    | some r =>
      have hr : r.id = generateConsistentUUID cid := by
        have := List.find?_some hf
        simpa using this
      simp [hf, hr]

lemma getOrCreate_fst_cases (cid fn em ur : String) (b : StoreBehavior) (st : Store) :
    (getOrCreateUserProfile cid fn em ur b st).1 = generateConsistentUUID cid ∨
      ∃ rec ∈ st, (getOrCreateUserProfile cid fn em ur b st).1 = rec.id := by
  unfold getOrCreateUserProfile
  rcases lookupPhase_cases b (generateConsistentUUID cid) em st with hl | ⟨rec, hm, hl⟩
  · left
    simp only [hl]
    exact creationPhase_fst b cid fn em ur st
  · right
    exact ⟨rec, hm, by simp [hl]⟩

/-- C1: for every string `s`, the mapper's output passes the format
validator: `validateUUID (generateConsistentUUID s)` is `true` — the
constructed string is five lowercase-hex dash-separated groups of lengths
8-4-4-4-12, with version nibble `'4' ∈ [1-5]` and variant nibble
`'a' ∈ [89ab]`. -/
theorem claim_C1_format_validity (s : String) :
    validateUUID (generateConsistentUUID s) = true :=
  validateUUID_generateConsistentUUID s

/-- C2: resolving twice with the same external id and attributes against a
persistent, fully working store (starting from an empty `profiles` table)
returns the same InternalId both times, and afterwards exactly one record
exists for that identity (the one keyed by the derived id). -/
theorem claim_C2_idempotent_resolution (ext name email role : String) :
    (getOrCreateUserProfile ext name email role goodBehavior []).1
        = generateConsistentUUID ext ∧
      (getOrCreateUserProfile ext name email role goodBehavior
          (getOrCreateUserProfile ext name email role goodBehavior []).2).1
        = generateConsistentUUID ext ∧
      (getOrCreateUserProfile ext name email role goodBehavior
          (getOrCreateUserProfile ext name email role goodBehavior []).2).2
        = [⟨generateConsistentUUID ext, name, email, role, "clerk"⟩] ∧
      ((getOrCreateUserProfile ext name email role goodBehavior
          (getOrCreateUserProfile ext name email role goodBehavior []).2).2.filter
        (fun rec => rec.id == generateConsistentUUID ext)).length = 1 := by
  simp [getOrCreateUserProfile, lookupPhase, doLookup, creationPhase, rpcGetOrCreate,
    goodBehavior, List.find?]

/-- C3 counterexample: the claim that the resolver's return value always
passes `validateUUID` fails: if the store holds a record with a malformed
primary key but a matching email, the resolver returns that key verbatim. -/
theorem claim_C3_counterexample :
    (getOrCreateUserProfile "u1" "Name" "e@x" "student" goodBehavior
        [⟨"not-a-uuid", "Existing", "e@x", "student", "clerk"⟩]).1 = "not-a-uuid" ∧
      validateUUID "not-a-uuid" = false := by
  constructor
  · decide
  · decide

/-- C3 (amended): the resolver is total — every Profile Store behaviour,
including throwing lookups, RPC and insert, reaches a `return` — and,
provided every record id held by the store passes the validator, the value
returned on every branch passes `validateUUID` (it is either a stored id or
the derived `generateConsistentUUID` value). -/
theorem claim_C3_never_throws_valid_id (cid fn em ur : String) (b : StoreBehavior)
    (st : Store) (hst : ∀ rec ∈ st, validateUUID rec.id = true) :
    validateUUID (getOrCreateUserProfile cid fn em ur b st).1 = true := by
  rcases getOrCreate_fst_cases cid fn em ur b st with h | ⟨rec, hm, h⟩
  · rw [h]
    exact validateUUID_generateConsistentUUID cid
  · rw [h]
    exact hst rec hm

/-- C3 witness: the amended theorem applied at a concrete input whose store
satisfies the hypothesis. -/
theorem claim_C3_never_throws_valid_id_witness :
    (∀ rec ∈ ([] : Store), validateUUID rec.id = true) ∧
      validateUUID (getOrCreateUserProfile "u1" "Name" "e@x" "student"
        ⟨.throws, .throws, .throws, .throws⟩ []).1 = true :=
  ⟨by simp, claim_C3_never_throws_valid_id "u1" "Name" "e@x" "student"
    ⟨.throws, .throws, .throws, .throws⟩ [] (by simp)⟩

/-- C4: whenever both lookups run and find no record, the resolver's
creation step is invoked with `candidateId` and the attributes: a working
RPC (or a working direct insert after an RPC error) persists exactly the
record keyed `candidateId` carrying the attributes and `candidateId` is
returned; a failing or id-less creation returns `candidateId` with the
store unchanged. -/
theorem claim_C4_creation_outcomes (ext name email role : String) (st : Store)
    (ib : InsertB)
    (hnoid : List.find? (fun r => r.id == generateConsistentUUID ext) st = none)
    (hnoem : List.find? (fun r => r.email == email) st = none) :
    (getOrCreateUserProfile ext name email role ⟨.works, .works, .runs, ib⟩ st =
        (generateConsistentUUID ext,
          st ++ [⟨generateConsistentUUID ext, name, email, role, "clerk"⟩])) ∧
      (getOrCreateUserProfile ext name email role ⟨.works, .works, .errs, .works⟩ st =
        (generateConsistentUUID ext,
          st ++ [⟨generateConsistentUUID ext, name, email, role, "clerk"⟩])) ∧
      (getOrCreateUserProfile ext name email role ⟨.works, .works, .throws, ib⟩ st =
        (generateConsistentUUID ext, st)) ∧
      (getOrCreateUserProfile ext name email role ⟨.works, .works, .retNull, ib⟩ st =
        (generateConsistentUUID ext, st)) ∧
      (getOrCreateUserProfile ext name email role ⟨.works, .works, .errs, .throws⟩ st =
        (generateConsistentUUID ext, st)) ∧
      (getOrCreateUserProfile ext name email role ⟨.works, .works, .errs, .errs⟩ st =
        (generateConsistentUUID ext, st)) := by
  have hany : st.any (fun r => r.id == generateConsistentUUID ext) = false := by
    rw [List.any_eq_false]
    intro r hr
    exact List.find?_eq_none.mp hnoid r hr
  refine ⟨?_, ?_, ?_, ?_, ?_, ?_⟩ <;>
    simp [getOrCreateUserProfile, lookupPhase, doLookup, creationPhase, insertFallback,
      rpcGetOrCreate, hnoid, hnoem, hany]

/-- C4 witness: the theorem applied at the empty store. -/
theorem claim_C4_creation_outcomes_witness :
    (List.find? (fun r => r.id == generateConsistentUUID "u1") ([] : Store) = none) ∧
      (List.find? (fun r => r.email == "e@x") ([] : Store) = none) ∧
      getOrCreateUserProfile "u1" "Name" "e@x" "student" ⟨.works, .works, .runs, .works⟩ [] =
        (generateConsistentUUID "u1",
          [⟨generateConsistentUUID "u1", "Name", "e@x", "student", "clerk"⟩]) :=
  ⟨rfl, rfl, (claim_C4_creation_outcomes "u1" "Name" "e@x" "student" [] .works rfl rfl).1⟩

/-- C5: if the store is unreachable for every operation (each lookup, the
RPC and the insert throws or errors), the resolver returns exactly
`generateConsistentUUID ext` without raising, and the store state is
unchanged. -/
theorem claim_C5_fallback_on_store_failure (ext name email role : String)
    (b : StoreBehavior) (st : Store)
    (h1 : b.idLookup.fails = true) (h2 : b.emailLookup.fails = true)
    (h3 : b.rpc.fails = true) (h4 : b.ins.fails = true) :
    getOrCreateUserProfile ext name email role b st = (generateConsistentUUID ext, st) := by
  rcases b with ⟨bi, be, br, bins⟩
  cases bi <;> cases be <;> cases br <;> cases bins <;>
    simp_all [LookupB.fails, RpcB.fails, InsertB.fails, getOrCreateUserProfile,
      lookupPhase, doLookup, creationPhase, insertFallback]

/-- C5 witness: the theorem applied with every operation throwing. -/
theorem claim_C5_fallback_on_store_failure_witness :
    (LookupB.fails .throws = true) ∧ (RpcB.fails .throws = true) ∧
      (InsertB.fails .throws = true) ∧
      getOrCreateUserProfile "u" "Name" "e@x" "student"
          ⟨.throws, .throws, .throws, .throws⟩ [] =
        (generateConsistentUUID "u", []) :=
  ⟨rfl, rfl, rfl,
    claim_C5_fallback_on_store_failure "u" "Name" "e@x" "student"
      ⟨.throws, .throws, .throws, .throws⟩ [] rfl rfl rfl rfl⟩

/-- C6: if the store holds no record keyed `generateConsistentUUID ext` but
holds one whose email matches, the resolver returns that existing record's
id — not the freshly derived candidate — and creates nothing. -/
theorem claim_C6_reconciliation_by_email (ext name email role : String)
    (b : StoreBehavior) (st : Store) (rec : ProfileRecord)
    (hid : b.idLookup = .works) (hem : b.emailLookup = .works)
    (hnoid : List.find? (fun r => r.id == generateConsistentUUID ext) st = none)
    (hfind : List.find? (fun r => r.email == email) st = some rec) :
    getOrCreateUserProfile ext name email role b st = (rec.id, st) := by
  rcases b with ⟨bi, be, br, bins⟩
  cases hid
  cases hem
  simp [getOrCreateUserProfile, lookupPhase, doLookup, hnoid, hfind]

/-- C6 witness: a store with one record under a different primary key but a
matching email. -/
theorem claim_C6_reconciliation_by_email_witness :
    (goodBehavior.idLookup = .works) ∧ (goodBehavior.emailLookup = .works) ∧
      (List.find? (fun r => r.id == generateConsistentUUID "u1")
        ([⟨"aaaaaaaa-aaaa-4aaa-aaaa-aaaaaaaaaaaa", "N", "e@x", "student", "clerk"⟩] : Store)
          = none) ∧
      (List.find? (fun r => r.email == "e@x")
          ([⟨"aaaaaaaa-aaaa-4aaa-aaaa-aaaaaaaaaaaa", "N", "e@x", "student", "clerk"⟩] : Store) =
        some (⟨"aaaaaaaa-aaaa-4aaa-aaaa-aaaaaaaaaaaa", "N", "e@x", "student", "clerk"⟩ :
          ProfileRecord)) ∧
      getOrCreateUserProfile "u1" "Name" "e@x" "student" goodBehavior
          [⟨"aaaaaaaa-aaaa-4aaa-aaaa-aaaaaaaaaaaa", "N", "e@x", "student", "clerk"⟩] =
        ("aaaaaaaa-aaaa-4aaa-aaaa-aaaaaaaaaaaa",
          [⟨"aaaaaaaa-aaaa-4aaa-aaaa-aaaaaaaaaaaa", "N", "e@x", "student", "clerk"⟩]) :=
  ⟨rfl, rfl, by decide, by decide,
    claim_C6_reconciliation_by_email "u1" "Name" "e@x" "student" goodBehavior
      [⟨"aaaaaaaa-aaaa-4aaa-aaaa-aaaaaaaaaaaa", "N", "e@x", "student", "clerk"⟩]
      ⟨"aaaaaaaa-aaaa-4aaa-aaaa-aaaaaaaaaaaa", "N", "e@x", "student", "clerk"⟩
      rfl rfl (by decide) (by decide)⟩

/-- C7: the mapper is deterministic — repeated calls on the same string are
equal (the embedding of the `try` body is a total pure function, so the
`catch` branch returning a random UUID is dead code), and the golden value
for `"user-123"` pins the result across process restarts. -/
theorem claim_C7_deterministic :
    (∀ s : String, generateConsistentUUID s = generateConsistentUUID s) ∧
      generateConsistentUUID "user-123" = "0275657e-0275-4275-a027-0275657e0000" :=
  ⟨fun _ => rfl, by decide⟩

/-- C8: one iteration of the accumulator loop, `((h << 5) - h + c)` followed
by the `h & h` truncation under JavaScript 32-bit semantics, equals
`31 * h + c` reduced to the 32-bit signed integer range — the classic
polynomial rolling hash step with multiplier 31. -/
theorem claim_C8_hash_step_is_mul31 (h : Int) (c : Nat) :
    hashStep h c = toInt32 (31 * h + (c : Int)) := by
  unfold hashStep toInt32
  omega

/-- C9: the mapper is not injective: two distinct strings collide (the whole
output is determined by one 32-bit hash, and `"Aa"`/`"BB"` already collide
under the multiplier-31 recurrence). -/
theorem claim_C9_not_injective :
    ∃ s1 s2 : String, s1 ≠ s2 ∧ generateConsistentUUID s1 = generateConsistentUUID s2 :=
  ⟨"Aa", "BB", by decide, by decide⟩

/-- C10: the full RPC-plus-direct-insert resolver of `userUtils.ts` and the
skip-creation workaround of `part_000` return the same InternalId for every
input, every store behaviour and every store state (with the RPC modelled
from the spec as the deterministic record-creation procedure); they differ
only in whether a record is persisted. -/
theorem claim_C10_workaround_refines_full (cid fn em ur : String)
    (b : StoreBehavior) (st : Store) :
    (getOrCreateUserProfile cid fn em ur b st).1 =
      (getOrCreateUserProfileWorkaround cid fn em ur b st).1 := by
  unfold getOrCreateUserProfile getOrCreateUserProfileWorkaround
  cases hl : lookupPhase b (generateConsistentUUID cid) em st with
  | some id => simp [hl]
  | none => simp [hl, creationPhase_fst]
